import Mathlib

/-!
Shallow embedding of the projectile-motion simulator in `src/App.tsx`.

JavaScript numbers are modelled as real numbers.  The pieces embedded here
are exactly the simulation core: the acceleration model
(`getAccelerationVector`, lines 410-423 and 525-544 of the source compute
the same expression), the fixed-step semi-implicit Euler loop inside
`runSimulation` (lines 401-450), the frame-delta clamp (lines 385-393),
the ground-contact finalisation branch (lines 461-488) and `fireCannon`
(lines 295-333).  The unbounded `while` loop of the source is embedded as
a fuel-indexed recursion `stepLoop`; fuel sufficiency (the loop leaves the
accumulator below `FIXED_DT`, hence terminates) is proved below.
-/

open Classical

/-- `Point` of the source: a real-valued pair used for positions,
velocities, accelerations and forces. -/
structure Vec where
  x : ℝ
  y : ℝ


/-- `ProjectileState` of the source. -/
structure ProjectileState where
  position : Vec
  velocity : Vec


/-- `SimulationDataPoint` of the source (one recorded sample). -/
structure SimDataPoint where
  time : ℝ
  posX : ℝ
  posY : ℝ
  vel : ℝ
  acc : ℝ


/-- `FlightSummary` of the source. -/
structure FlightSummary where
  maxRange : ℝ
  maxHeight : ℝ
  totalTime : ℝ
  impactVelocity : ℝ


/-- The body parameters read by the physics step (`mass`, `diameter`,
`airResistance` state of the component). -/
structure BodyParams where
  mass : ℝ
  diameter : ℝ
  airResistance : Bool

noncomputable def GRAVITY : ℝ := 9.81

noncomputable def AIR_DENSITY : ℝ := 1.225

noncomputable def SCALE : ℝ := 20

noncomputable def CANNON_BASE_HEIGHT : ℝ := 20

noncomputable def CANNON_LENGTH : ℝ := 60

noncomputable def CANNON_PIVOT_X : ℝ := 30

noncomputable def FIXED_DT : ℝ := 1 / 120

noncomputable def dragCoefficient : ℝ := 0.47

/-- The acceleration computed from the current velocity (source lines
410-423 inside the physics loop; `getAccelerationVector` at lines 525-544
computes the same expression). -/
noncomputable def getAccelerationVector (velocity : Vec) (p : BodyParams) : Vec :=
  let ax : ℝ := 0
  let ay : ℝ := -GRAVITY
  if p.airResistance then
    let area := Real.pi * (p.diameter / 2) ^ 2
    let speed := Real.sqrt (velocity.x ^ 2 + velocity.y ^ 2)
    if speed > 0 then
      let dragForceMagnitude := 0.5 * AIR_DENSITY * speed ^ 2 * dragCoefficient * area
      let Fdx := -dragForceMagnitude * (velocity.x / speed)
      let Fdy := -dragForceMagnitude * (velocity.y / speed)
      ⟨ax + Fdx / p.mass, ay + Fdy / p.mass⟩
    else ⟨ax, ay⟩
  else ⟨ax, ay⟩

/-- State threaded through the fixed-step `while` loop of `runSimulation`:
the working projectile (`tempProjectile`), the working simulated time
(`tempSimTime`), the accumulator, and the per-frame `newPathPoints` and
`newSimDataPoints` arrays. -/
structure LoopState where
  proj : ProjectileState
  simTime : ℝ
  accumulator : ℝ
  pathPoints : List Vec
  simData : List SimDataPoint

/-- One iteration body of the physics loop when the ground guard does not
fire (source lines 410-449): semi-implicit Euler update plus sample
recording and accumulator decrement. -/
noncomputable def integrateOnce (p : BodyParams) (s : LoopState) : LoopState :=
  let a := getAccelerationVector s.proj.velocity p
  let newVelocity : Vec :=
    ⟨s.proj.velocity.x + a.x * FIXED_DT, s.proj.velocity.y + a.y * FIXED_DT⟩
  let newPosition : Vec :=
    ⟨s.proj.position.x + s.proj.velocity.x * FIXED_DT,
     s.proj.position.y + s.proj.velocity.y * FIXED_DT⟩
  let t := s.simTime + FIXED_DT
  let speed := Real.sqrt (newVelocity.x ^ 2 + newVelocity.y ^ 2)
  let accMag := Real.sqrt (a.x ^ 2 + a.y ^ 2)
  { proj := ⟨newPosition, newVelocity⟩
    simTime := t
    accumulator := s.accumulator - FIXED_DT
    pathPoints := s.pathPoints ++ [newPosition]
    simData := s.simData ++ [⟨t, newPosition.x, newPosition.y, speed, accMag⟩] }

/-- The fixed-step `while (accumulator >= FIXED_DT)` loop of
`runSimulation` (source lines 401-450), as a fuel-indexed recursion.  The
ground guard (lines 404-408) clears the accumulator and exits; otherwise
one `integrateOnce` runs and `FIXED_DT` is consumed. -/
noncomputable def stepLoop (p : BodyParams) : ℕ → LoopState → LoopState
  | 0, s => s
  | fuel + 1, s =>
    if s.accumulator ≥ FIXED_DT then
      if s.proj.position.y ≤ 0 ∧ s.simTime > 0.1 then
        { s with accumulator := 0 }
      else
        stepLoop p fuel (integrateOnce p s)
    else s

/-- Frame-delta computation and clamp of `runSimulation` (source lines
385-393): `frameTime = (timestamp - lastTime)/1000`, clamped to `0.25`
when larger, then added to the accumulator. -/
noncomputable def frameAccumulate (timestamp lastTime acc : ℝ) : ℝ :=
  let frameTime := (timestamp - lastTime) / 1000
  let clamped := if frameTime > 0.25 then 0.25 else frameTime
  acc + clamped

/-- The React component state relevant to the simulation core. -/
structure AppState where
  initialSpeed : ℝ
  angle : ℝ
  mass : ℝ
  diameter : ℝ
  airResistance : Bool
  projectile : Option ProjectileState
  paths : List (List Vec)
  currentPath : List Vec
  isRunning : Bool
  simulationTime : ℝ
  impactPoint : Option Vec
  allSimulationData : List (List SimDataPoint)
  currentSimData : List SimDataPoint
  isSummaryModalOpen : Bool
  flightSummary : Option FlightSummary
  lastTime : Option ℝ
  accumulator : ℝ
  showCharts : Bool

/-- The body parameters the frame callback closes over. -/
def bodyParams (s : AppState) : BodyParams :=
  ⟨s.mass, s.diameter, s.airResistance⟩

/-- `fireCannon` (source lines 295-333).  `now` stands for the
`performance.now()` value.  The audio cue is presentation-only and has no
state effect. -/
noncomputable def fireCannon (now : ℝ) (s : AppState) : AppState :=
  if s.isRunning then s
  else
    let paths' := if 0 < s.currentPath.length then s.paths ++ [s.currentPath] else s.paths
    let angleRad := s.angle * Real.pi / 180
    let initialVelocity : Vec :=
      ⟨s.initialSpeed * Real.cos angleRad, s.initialSpeed * Real.sin angleRad⟩
    let cannonEndX := CANNON_PIVOT_X + CANNON_LENGTH * Real.cos angleRad
    let cannonEndY := CANNON_BASE_HEIGHT + CANNON_LENGTH * Real.sin angleRad
    let startPos : Vec := ⟨cannonEndX / SCALE, cannonEndY / SCALE⟩
    { s with
      paths := paths'
      projectile := some ⟨startPos, initialVelocity⟩
      currentPath := [startPos]
      currentSimData := [⟨0, startPos.x, startPos.y, s.initialSpeed, GRAVITY⟩]
      simulationTime := 0
      isRunning := true
      lastTime := some now
      accumulator := 0 }

/-- The fixed-step loop as invoked by one frame callback: the loop runs on
the live projectile with the post-clamp accumulator and fresh per-frame
sample arrays. -/
noncomputable def frameLoop (timestamp lastT : ℝ) (fuel : ℕ) (s : AppState)
    (proj : ProjectileState) : LoopState :=
  stepLoop (bodyParams s) fuel
    { proj := proj
      simTime := s.simulationTime
      accumulator := frameAccumulate timestamp lastT s.accumulator
      pathPoints := []
      simData := [] }

/-- One frame callback `runSimulation` (source lines 378-491).  The first
branch mirrors the JavaScript falsiness check
`!lastTimeRef.current || !projectile` (a stored timestamp of `0` is
falsy).  After draining the loop, the component state is updated once, and
the ground-contact branch (lines 461-488) finalises the trajectory:
it clamps the final path point to `y = 0`, archives the raw sample list,
computes the `FlightSummary` from the pre-zeroing velocity, then zeroes
the displayed velocity and stops the run. -/
noncomputable def runSimulation (timestamp : ℝ) (fuel : ℕ) (s : AppState) : AppState :=
  match s.lastTime, s.projectile with
  | none, _ => { s with lastTime := some timestamp }
  | some _, none => { s with lastTime := some timestamp }
  | some lastT, some proj =>
    if lastT = 0 then { s with lastTime := some timestamp }
    else
      let r := frameLoop timestamp lastT fuel s proj
      let s1 :=
        if 0 < r.pathPoints.length then
          { s with
            lastTime := some timestamp
            projectile := some r.proj
            currentPath := s.currentPath ++ r.pathPoints
            simulationTime := r.simTime
            currentSimData := s.currentSimData ++ r.simData
            accumulator := r.accumulator }
        else
          { s with lastTime := some timestamp, accumulator := r.accumulator }
      if r.proj.position.y ≤ 0 ∧ s.simulationTime > 0 then
        let finalPosition : Vec := ⟨r.proj.position.x, 0⟩
        let finalPath := s.currentPath ++ r.pathPoints.dropLast ++ [finalPosition]
        let finalSimData := s1.currentSimData
        let summaryData : FlightSummary :=
          { totalTime :=
              match finalSimData.getLast? with
              | some d => d.time
              | none => 0
            maxHeight := (finalSimData.map (fun d => d.posY)).foldr max 0
            maxRange := finalPosition.x - CANNON_PIVOT_X / SCALE
            impactVelocity :=
              Real.sqrt (r.proj.velocity.x ^ 2 + r.proj.velocity.y ^ 2) }
        { s1 with
          flightSummary := some summaryData
          isSummaryModalOpen := true
          currentSimData := []
          projectile := some ⟨finalPosition, ⟨0, 0⟩⟩
          currentPath := finalPath
          impactPoint := some finalPosition
          allSimulationData := s.allSimulationData ++ [finalSimData]
          showCharts := true
          isRunning := false }
      else s1

/-! ### Helper lemmas -/

lemma stepLoop_of_acc_lt (p : BodyParams) (fuel : ℕ) (s : LoopState)
    (h : s.accumulator < FIXED_DT) : stepLoop p fuel s = s := by
  cases fuel with
  | zero => rfl
  | succ n => rw [stepLoop, if_neg (not_le.mpr h)]

/-! ### C1 -/

/-- Claim C1: every integrator step computes the acceleration from the
current velocity, then returns `velocity + acc * FIXED_DT` as the new
velocity and `position + velocity * FIXED_DT` as the new position, the
position update using the pre-update velocity (semi-implicit Euler), for
all body parameters and all in-flight loop states. -/
theorem step_semi_implicit_euler (p : BodyParams) (s : LoopState) (fuel : ℕ)
    (hacc : s.accumulator ≥ FIXED_DT)
    (hguard : ¬(s.proj.position.y ≤ 0 ∧ s.simTime > 0.1)) :
    stepLoop p (fuel + 1) s = stepLoop p fuel (integrateOnce p s) ∧
    (integrateOnce p s).proj.velocity.x
      = s.proj.velocity.x + (getAccelerationVector s.proj.velocity p).x * FIXED_DT ∧
    (integrateOnce p s).proj.velocity.y
      = s.proj.velocity.y + (getAccelerationVector s.proj.velocity p).y * FIXED_DT ∧
    (integrateOnce p s).proj.position.x
      = s.proj.position.x + s.proj.velocity.x * FIXED_DT ∧
    (integrateOnce p s).proj.position.y
      = s.proj.position.y + s.proj.velocity.y * FIXED_DT := by
  refine ⟨?_, rfl, rfl, rfl, rfl⟩
  rw [stepLoop, if_pos hacc, if_neg hguard]

/-- Witness for C1 at a concrete in-flight state. -/
theorem step_semi_implicit_euler_witness :
    ((1 : ℝ) / 60 ≥ FIXED_DT ∧ ¬((1 : ℝ) ≤ 0 ∧ (0 : ℝ) > 0.1)) ∧
    (stepLoop ⟨5, 1 / 2, false⟩ 1 ⟨⟨⟨0, 1⟩, ⟨3, 4⟩⟩, 0, 1 / 60, [], []⟩
        = stepLoop ⟨5, 1 / 2, false⟩ 0
            (integrateOnce ⟨5, 1 / 2, false⟩ ⟨⟨⟨0, 1⟩, ⟨3, 4⟩⟩, 0, 1 / 60, [], []⟩) ∧
      (integrateOnce ⟨5, 1 / 2, false⟩
          ⟨⟨⟨0, 1⟩, ⟨3, 4⟩⟩, 0, 1 / 60, [], []⟩).proj.velocity.x
        = 3 + (getAccelerationVector ⟨3, 4⟩ ⟨5, 1 / 2, false⟩).x * FIXED_DT ∧
      (integrateOnce ⟨5, 1 / 2, false⟩
          ⟨⟨⟨0, 1⟩, ⟨3, 4⟩⟩, 0, 1 / 60, [], []⟩).proj.velocity.y
        = 4 + (getAccelerationVector ⟨3, 4⟩ ⟨5, 1 / 2, false⟩).y * FIXED_DT ∧
      (integrateOnce ⟨5, 1 / 2, false⟩
          ⟨⟨⟨0, 1⟩, ⟨3, 4⟩⟩, 0, 1 / 60, [], []⟩).proj.position.x
        = 0 + 3 * FIXED_DT ∧
      (integrateOnce ⟨5, 1 / 2, false⟩
          ⟨⟨⟨0, 1⟩, ⟨3, 4⟩⟩, 0, 1 / 60, [], []⟩).proj.position.y
        = 1 + 4 * FIXED_DT) :=
  ⟨⟨by norm_num [FIXED_DT], by norm_num⟩,
    step_semi_implicit_euler ⟨5, 1 / 2, false⟩ ⟨⟨⟨0, 1⟩, ⟨3, 4⟩⟩, 0, 1 / 60, [], []⟩ 0
      (by norm_num [FIXED_DT]) (by norm_num)⟩

/-! ### C2 -/

/-- Claim C2: with drag disabled the computed acceleration is exactly
`(0, -9.81)`; with drag enabled and zero speed the drag contribution is
exactly zero (no division by zero occurs); with drag enabled and positive
speed `s` the acceleration is `(0, -9.81)` plus `(Fd / mass)` applied
along `-velocity / s`, where `Fd = 0.5 * 1.225 * s ^ 2 * 0.47 * A` and
`A = pi * (diameter / 2) ^ 2`. -/
theorem acceleration_model (v : Vec) (p : BodyParams) :
    (p.airResistance = false → getAccelerationVector v p = ⟨0, -GRAVITY⟩) ∧
    (Real.sqrt (v.x ^ 2 + v.y ^ 2) = 0 → getAccelerationVector v p = ⟨0, -GRAVITY⟩) ∧
    (p.airResistance = true → 0 < Real.sqrt (v.x ^ 2 + v.y ^ 2) →
      getAccelerationVector v p =
        ⟨0 + (0.5 * 1.225 * Real.sqrt (v.x ^ 2 + v.y ^ 2) ^ 2 * 0.47 *
                (Real.pi * (p.diameter / 2) ^ 2) / p.mass) *
              (-v.x / Real.sqrt (v.x ^ 2 + v.y ^ 2)),
         -(9.81 : ℝ) + (0.5 * 1.225 * Real.sqrt (v.x ^ 2 + v.y ^ 2) ^ 2 * 0.47 *
                (Real.pi * (p.diameter / 2) ^ 2) / p.mass) *
              (-v.y / Real.sqrt (v.x ^ 2 + v.y ^ 2))⟩) := by
  refine ⟨?_, ?_, ?_⟩
  · intro h
    simp [getAccelerationVector, h]
  · intro h
    by_cases hair : p.airResistance
    · simp [getAccelerationVector, hair, h]
    · simp [getAccelerationVector, hair]
  · intro hair hs
    simp only [getAccelerationVector, hair, if_true, hs, AIR_DENSITY, GRAVITY,
      dragCoefficient, gt_iff_lt, if_pos hs]
    refine congrArg₂ Vec.mk ?_ ?_ <;> ring

/-- Witness for C2 at a concrete velocity `(3, 4)` (speed 5) with drag
enabled. -/
theorem acceleration_model_witness :
    ((⟨2, 1, true⟩ : BodyParams).airResistance = true ∧
      0 < Real.sqrt ((3 : ℝ) ^ 2 + (4 : ℝ) ^ 2)) ∧
    getAccelerationVector ⟨3, 4⟩ ⟨2, 1, true⟩ =
      ⟨0 + (0.5 * 1.225 * Real.sqrt ((3 : ℝ) ^ 2 + (4 : ℝ) ^ 2) ^ 2 * 0.47 *
              (Real.pi * ((1 : ℝ) / 2) ^ 2) / 2) *
            (-(3 : ℝ) / Real.sqrt ((3 : ℝ) ^ 2 + (4 : ℝ) ^ 2)),
       -(9.81 : ℝ) + (0.5 * 1.225 * Real.sqrt ((3 : ℝ) ^ 2 + (4 : ℝ) ^ 2) ^ 2 * 0.47 *
              (Real.pi * ((1 : ℝ) / 2) ^ 2) / 2) *
            (-(4 : ℝ) / Real.sqrt ((3 : ℝ) ^ 2 + (4 : ℝ) ^ 2))⟩ :=
  ⟨⟨rfl, by positivity⟩,
    (acceleration_model ⟨3, 4⟩ ⟨2, 1, true⟩).2.2 rfl (by positivity)⟩

/-! ### C3 -/

/-- Claim C3: when the loop head sees `position.y ≤ 0` with elapsed
simulated time above the `0.1` grace epsilon, the step is a no-op: the
accumulator is cleared to `0`, the loop exits immediately, and the
projectile, time and recorded samples are left untouched. -/
theorem ground_guard_halts (p : BodyParams) (s : LoopState) (fuel : ℕ)
    (hy : s.proj.position.y ≤ 0) (ht : s.simTime > 0.1)
    (hacc : s.accumulator ≥ FIXED_DT) :
    stepLoop p (fuel + 1) s = { s with accumulator := 0 } := by
  rw [stepLoop, if_pos hacc, if_pos ⟨hy, ht⟩]

/-- Witness for C3 at a concrete grounded state. -/
theorem ground_guard_halts_witness :
    ((⟨⟨⟨4, 0⟩, ⟨3, -2⟩⟩, 1, 1 / 60, [], []⟩ : LoopState).proj.position.y ≤ 0 ∧
      (⟨⟨⟨4, 0⟩, ⟨3, -2⟩⟩, 1, 1 / 60, [], []⟩ : LoopState).simTime > 0.1 ∧
      (⟨⟨⟨4, 0⟩, ⟨3, -2⟩⟩, 1, 1 / 60, [], []⟩ : LoopState).accumulator ≥ FIXED_DT) ∧
    stepLoop ⟨5, 1 / 2, true⟩ 3 ⟨⟨⟨4, 0⟩, ⟨3, -2⟩⟩, 1, 1 / 60, [], []⟩
      = { (⟨⟨⟨4, 0⟩, ⟨3, -2⟩⟩, 1, 1 / 60, [], []⟩ : LoopState) with accumulator := 0 } :=
  ⟨⟨by norm_num, by norm_num, by norm_num [FIXED_DT]⟩,
    ground_guard_halts ⟨5, 1 / 2, true⟩ ⟨⟨⟨4, 0⟩, ⟨3, -2⟩⟩, 1, 1 / 60, [], []⟩ 2
      (by norm_num) (by norm_num) (by norm_num [FIXED_DT])⟩

/-! ### C4 -/

/-- Claim C4: the frame delta `(timestamp - lastTime) / 1000` is clamped
to at most `0.25` before being added to the accumulator; in particular a
5-second stall (`timestamp = lastTime + 5000` milliseconds) contributes
exactly `0.25` of simulated catch-up time. -/
theorem frame_delta_clamped (timestamp lastT acc : ℝ) :
    frameAccumulate timestamp lastT acc
        = acc + min ((timestamp - lastT) / 1000) 0.25 ∧
    frameAccumulate timestamp lastT acc ≤ acc + 0.25 ∧
    frameAccumulate (lastT + 5000) lastT acc = acc + 0.25 := by
  have hmin : ∀ d : ℝ, (if d > 0.25 then (0.25 : ℝ) else d) = min d 0.25 := by
    intro d
    by_cases h : d > 0.25
    · rw [if_pos h, min_eq_right h.le]
    · rw [if_neg h, min_eq_left (not_lt.mp h)]
  refine ⟨by rw [frameAccumulate, hmin], ?_, ?_⟩
  · rw [frameAccumulate, hmin]
    exact add_le_add_left (min_le_right _ _) acc
  · rw [frameAccumulate, hmin]
    norm_num

/-! ### C7 -/

/-- Claim C7: calling `fireCannon` while a shot is already running is a
no-op: the whole component state (projectile, current path, recorded
samples, simulation time, accumulator, last timestamp, path history, and
every other field) is returned unchanged. -/
theorem fire_while_running_noop (now : ℝ) (s : AppState)
    (h : s.isRunning = true) : fireCannon now s = s := by
  rw [fireCannon, if_pos h]

/-- Witness for C7 at a concrete running state. -/
theorem fire_while_running_noop_witness :
    (⟨15, 45, 5, 1 / 2, false, some ⟨⟨1, 2⟩, ⟨3, 4⟩⟩, [], [⟨1, 2⟩], true, 2, none,
        [], [⟨0, 1, 2, 15, 9.81⟩], false, none, some 5, 1 / 240, false⟩ :
      AppState).isRunning = true ∧
    fireCannon 7
        ⟨15, 45, 5, 1 / 2, false, some ⟨⟨1, 2⟩, ⟨3, 4⟩⟩, [], [⟨1, 2⟩], true, 2, none,
          [], [⟨0, 1, 2, 15, 9.81⟩], false, none, some 5, 1 / 240, false⟩
      = ⟨15, 45, 5, 1 / 2, false, some ⟨⟨1, 2⟩, ⟨3, 4⟩⟩, [], [⟨1, 2⟩], true, 2, none,
          [], [⟨0, 1, 2, 15, 9.81⟩], false, none, some 5, 1 / 240, false⟩ :=
  ⟨rfl, fire_while_running_noop 7 _ rfl⟩

/-! ### C9 : loop termination and step bound -/

lemma FIXED_DT_pos : (0 : ℝ) < FIXED_DT := by norm_num [FIXED_DT]

lemma stepLoop_stable (p : BodyParams) :
    ∀ (n fuel : ℕ), n ≤ fuel → ∀ s : LoopState,
      s.accumulator < (n + 1) * FIXED_DT → stepLoop p fuel s = stepLoop p n s := by
  intro n
  induction n with
  | zero =>
    intro fuel _ s hs
    rw [show stepLoop p 0 s = s from rfl,
      stepLoop_of_acc_lt p fuel s (by simpa using hs)]
  | succ n ih =>
    intro fuel hf s hs
    obtain ⟨f, rfl⟩ : ∃ f, fuel = f + 1 := ⟨fuel - 1, (Nat.succ_pred_eq_of_pos (by omega)).symm⟩
    have hf' : n ≤ f := by omega
    rw [stepLoop, stepLoop]
    by_cases hacc : s.accumulator ≥ FIXED_DT
    · rw [if_pos hacc, if_pos hacc]
      by_cases hg : s.proj.position.y ≤ 0 ∧ s.simTime > 0.1
      · rw [if_pos hg, if_pos hg]
      · rw [if_neg hg, if_neg hg]
        have hlt : (integrateOnce p s).accumulator < (n + 1) * FIXED_DT := by
          show s.accumulator - FIXED_DT < (n + 1) * FIXED_DT
          have : ((n : ℝ) + 1 + 1) * FIXED_DT = (n + 1) * FIXED_DT + FIXED_DT := by ring
          push_cast at hs ⊢
          linarith [hs, this]
        exact ih f hf' (integrateOnce p s) hlt
    · rw [if_neg hacc, if_neg hacc]

lemma stepLoop_acc_lt (p : BodyParams) :
    ∀ (n : ℕ) (s : LoopState), s.accumulator < (n + 1) * FIXED_DT →
      (stepLoop p n s).accumulator < FIXED_DT := by
  intro n
  induction n with
  | zero =>
    intro s hs
    simpa using hs
  | succ n ih =>
    intro s hs
    rw [stepLoop]
    by_cases hacc : s.accumulator ≥ FIXED_DT
    · rw [if_pos hacc]
      by_cases hg : s.proj.position.y ≤ 0 ∧ s.simTime > 0.1
      · rw [if_pos hg]
        exact FIXED_DT_pos
      · rw [if_neg hg]
        refine ih (integrateOnce p s) ?_
        show s.accumulator - FIXED_DT < (n + 1) * FIXED_DT
        push_cast at hs ⊢
        linarith
    · rw [if_neg hacc]
      exact not_le.mp hacc

lemma stepLoop_path_length (p : BodyParams) :
    ∀ (fuel : ℕ) (s : LoopState),
      (stepLoop p fuel s).pathPoints.length ≤ s.pathPoints.length + fuel := by
  intro fuel
  induction fuel with
  | zero => intro s; simp [stepLoop]
  | succ n ih =>
    intro s
    rw [stepLoop]
    by_cases hacc : s.accumulator ≥ FIXED_DT
    · rw [if_pos hacc]
      by_cases hg : s.proj.position.y ≤ 0 ∧ s.simTime > 0.1
      · rw [if_pos hg]
        simp
      · rw [if_neg hg]
        have := ih (integrateOnce p s)
        have hlen : (integrateOnce p s).pathPoints.length = s.pathPoints.length + 1 := by
          simp [integrateOnce]
        omega
    · rw [if_neg hacc]
      omega

/-- Claim C9: the fixed-step loop of one frame callback terminates and
executes at most 31 integrator steps: with the carried-in accumulator
below `FIXED_DT` (its value after any drained frame) and the frame delta
clamped to `0.25`, the loop result is already reached with fuel `30`
(so the unbounded `while` loop exits), the number of recorded steps is at
most 31, and the accumulator it leaves behind is again below `FIXED_DT`. -/
theorem frame_loop_terminates_bounded (ts lastT : ℝ) (s : AppState)
    (proj : ProjectileState) (fuel : ℕ) (hcarry : s.accumulator < FIXED_DT)
    (hfuel : 30 ≤ fuel) :
    frameLoop ts lastT fuel s proj = frameLoop ts lastT 30 s proj ∧
    (frameLoop ts lastT fuel s proj).pathPoints.length ≤ 31 ∧
    (frameLoop ts lastT fuel s proj).accumulator < FIXED_DT := by
  have hacc : frameAccumulate ts lastT s.accumulator < (30 + 1) * FIXED_DT := by
    have h1 := (frame_delta_clamped ts lastT s.accumulator).2.1
    have : ((30 : ℝ) + 1) * FIXED_DT = FIXED_DT + 0.25 := by
      norm_num [FIXED_DT]
    rw [this]
    linarith
  have hstable := stepLoop_stable (bodyParams s) 30 fuel hfuel
    { proj := proj
      simTime := s.simulationTime
      accumulator := frameAccumulate ts lastT s.accumulator
      pathPoints := []
      simData := [] } (by simpa using hacc)
  refine ⟨hstable, ?_, ?_⟩
  · rw [frameLoop, hstable]
    have h2 := stepLoop_path_length (bodyParams s) 30
      { proj := proj
        simTime := s.simulationTime
        accumulator := frameAccumulate ts lastT s.accumulator
        pathPoints := []
        simData := [] }
    simp only [List.length_nil, Nat.zero_add] at h2
    omega
  · rw [frameLoop, hstable]
    exact stepLoop_acc_lt (bodyParams s) 30 _ (by simpa using hacc)

/-- Witness for C9 at a concrete frame (a 5-second stall, fuel 31). -/
theorem frame_loop_terminates_bounded_witness :
    ((⟨15, 45, 5, 1 / 2, false, some ⟨⟨1, 2⟩, ⟨3, 4⟩⟩, [], [], true, 2, none, [],
        [], false, none, some 1000, 0, false⟩ : AppState).accumulator < FIXED_DT ∧
      30 ≤ 31) ∧
    (frameLoop 6000 1000 31
        ⟨15, 45, 5, 1 / 2, false, some ⟨⟨1, 2⟩, ⟨3, 4⟩⟩, [], [], true, 2, none, [],
          [], false, none, some 1000, 0, false⟩ ⟨⟨1, 2⟩, ⟨3, 4⟩⟩
      = frameLoop 6000 1000 30
        ⟨15, 45, 5, 1 / 2, false, some ⟨⟨1, 2⟩, ⟨3, 4⟩⟩, [], [], true, 2, none, [],
          [], false, none, some 1000, 0, false⟩ ⟨⟨1, 2⟩, ⟨3, 4⟩⟩ ∧
      (frameLoop 6000 1000 31
        ⟨15, 45, 5, 1 / 2, false, some ⟨⟨1, 2⟩, ⟨3, 4⟩⟩, [], [], true, 2, none, [],
          [], false, none, some 1000, 0, false⟩ ⟨⟨1, 2⟩, ⟨3, 4⟩⟩).pathPoints.length ≤ 31 ∧
      (frameLoop 6000 1000 31
        ⟨15, 45, 5, 1 / 2, false, some ⟨⟨1, 2⟩, ⟨3, 4⟩⟩, [], [], true, 2, none, [],
          [], false, none, some 1000, 0, false⟩ ⟨⟨1, 2⟩, ⟨3, 4⟩⟩).accumulator < FIXED_DT) :=
  ⟨⟨by norm_num [FIXED_DT], by norm_num⟩,
    frame_loop_terminates_bounded 6000 1000 _ ⟨⟨1, 2⟩, ⟨3, 4⟩⟩ 31
      (by norm_num [FIXED_DT]) (by norm_num)⟩

/-! ### C6 : flight summary -/

lemma le_foldr_max (a : ℝ) (l : List ℝ) : a ≤ l.foldr max a := by
  induction l with
  | nil => exact le_refl a
  | cons b t ih => exact ih.trans (le_max_right b _)

lemma mem_le_foldr_max (a b : ℝ) (l : List ℝ) (hb : b ∈ l) : b ≤ l.foldr max a := by
  induction l with
  | nil => cases hb
  | cons c t ih =>
    rcases List.mem_cons.mp hb with h | h
    · rw [h, List.foldr_cons]
      exact le_max_left _ _
    · exact (ih h).trans (le_max_right _ _)

lemma foldr_max_cases (a : ℝ) (l : List ℝ) : l.foldr max a = a ∨ l.foldr max a ∈ l := by
  induction l with
  | nil => exact Or.inl rfl
  | cons c t ih =>
    rcases max_cases c (t.foldr max a) with ⟨h, _⟩ | ⟨h, _⟩
    · right
      rw [List.foldr_cons, h]
      exact List.mem_cons_self c t
    · rcases ih with h2 | h2
      · left
        rw [List.foldr_cons, h, h2]
      · right
        rw [List.foldr_cons, h]
        exact List.mem_cons_of_mem c h2

lemma summary_fields (D : List SimDataPoint) (hDne : D ≠ []) :
    (∃ dl, D.getLast? = some dl ∧
      (match D.getLast? with | some d => d.time | none => 0) = dl.time) ∧
    (∀ d ∈ D, d.posY ≤ (D.map (fun d => d.posY)).foldr max 0) ∧
    (0 : ℝ) ≤ (D.map (fun d => d.posY)).foldr max 0 ∧
    ((D.map (fun d => d.posY)).foldr max 0 = 0 ∨
      ∃ d ∈ D, (D.map (fun d => d.posY)).foldr max 0 = d.posY) := by
  refine ⟨?_, ?_, le_foldr_max 0 _, ?_⟩
  · have h1 : D.getLast?.isSome := List.getLast?_isSome.mpr hDne
    obtain ⟨dl, hdl⟩ := Option.isSome_iff_exists.mp h1
    exact ⟨dl, hdl, by rw [hdl]⟩
  · intro d hd
    exact mem_le_foldr_max 0 d.posY _ (List.mem_map_of_mem (fun d => d.posY) hd)
  · rcases foldr_max_cases 0 (D.map (fun d => d.posY)) with h | h
    · exact Or.inl h
    · obtain ⟨d, hd, hde⟩ := List.mem_map.mp h
      exact Or.inr ⟨d, hd, hde.symm⟩

lemma stepLoop_lengths_eq (p : BodyParams) :
    ∀ (fuel : ℕ) (s : LoopState), s.pathPoints.length = s.simData.length →
      (stepLoop p fuel s).pathPoints.length = (stepLoop p fuel s).simData.length := by
  intro fuel
  induction fuel with
  | zero => intro s h; exact h
  | succ n ih =>
    intro s h
    rw [stepLoop]
    by_cases hacc : s.accumulator ≥ FIXED_DT
    · rw [if_pos hacc]
      by_cases hg : s.proj.position.y ≤ 0 ∧ s.simTime > 0.1
      · rw [if_pos hg]
        exact h
      · rw [if_neg hg]
        refine ih (integrateOnce p s) ?_
        simp [integrateOnce, h]
    · rw [if_neg hacc]
      exact h

/-- Claim C6: when a frame finalises a trajectory, the computed
`FlightSummary` satisfies: `totalTime` is the time of the last archived
sample; `maxHeight` is the maximum of the archived samples' `posY`
clamped to at least 0; `maxRange` is the final integrator position's `x`
minus `CANNON_PIVOT_X / SCALE`; and `impactVelocity` is the magnitude of
the final integrator velocity, taken before the displayed velocity is
zeroed (the published projectile ends with velocity `(0, 0)`). -/
theorem flight_summary_correct (ts : ℝ) (fuel : ℕ) (s : AppState) (lastT : ℝ)
    (proj : ProjectileState) (hLT : s.lastTime = some lastT) (hNZ : lastT ≠ 0)
    (hP : s.projectile = some proj)
    (hy : (frameLoop ts lastT fuel s proj).proj.position.y ≤ 0)
    (ht : s.simulationTime > 0)
    (hne : s.currentSimData ≠ [] ∨ (frameLoop ts lastT fuel s proj).simData ≠ []) :
    ∃ D fs,
      (runSimulation ts fuel s).allSimulationData = s.allSimulationData ++ [D] ∧
      (runSimulation ts fuel s).flightSummary = some fs ∧
      (∃ dl, D.getLast? = some dl ∧ fs.totalTime = dl.time) ∧
      (∀ d ∈ D, d.posY ≤ fs.maxHeight) ∧
      0 ≤ fs.maxHeight ∧
      (fs.maxHeight = 0 ∨ ∃ d ∈ D, fs.maxHeight = d.posY) ∧
      fs.maxRange
        = (frameLoop ts lastT fuel s proj).proj.position.x - CANNON_PIVOT_X / SCALE ∧
      fs.impactVelocity
        = Real.sqrt ((frameLoop ts lastT fuel s proj).proj.velocity.x ^ 2
            + (frameLoop ts lastT fuel s proj).proj.velocity.y ^ 2) ∧
      (runSimulation ts fuel s).projectile
        = some ⟨⟨(frameLoop ts lastT fuel s proj).proj.position.x, 0⟩, ⟨0, 0⟩⟩ := by
  simp only [runSimulation, hLT, hP]
  rw [if_neg hNZ]
  by_cases hpp : 0 < (frameLoop ts lastT fuel s proj).pathPoints.length
  · rw [if_pos hpp, if_pos ⟨hy, ht⟩]
    have hDne : s.currentSimData ++ (frameLoop ts lastT fuel s proj).simData ≠ [] := by
      rcases hne with h | h
      · intro hc
        exact h (List.append_eq_nil.mp hc).1
      · intro hc
        exact h (List.append_eq_nil.mp hc).2
    obtain ⟨h1, h2, h3, h4⟩ :=
      summary_fields (s.currentSimData ++ (frameLoop ts lastT fuel s proj).simData) hDne
    exact ⟨s.currentSimData ++ (frameLoop ts lastT fuel s proj).simData,
      _, rfl, rfl, h1, h2, h3, h4, rfl, rfl, rfl⟩
  · rw [if_neg hpp, if_pos ⟨hy, ht⟩]
    have hsd : (frameLoop ts lastT fuel s proj).simData = [] := by
      have hl := stepLoop_lengths_eq (bodyParams s) fuel
        { proj := proj
          simTime := s.simulationTime
          accumulator := frameAccumulate ts lastT s.accumulator
          pathPoints := []
          simData := [] } (by simp)
      have hz : (frameLoop ts lastT fuel s proj).pathPoints.length = 0 := by omega
      rw [frameLoop] at hz ⊢
      have : (stepLoop (bodyParams s) fuel
          { proj := proj
            simTime := s.simulationTime
            accumulator := frameAccumulate ts lastT s.accumulator
            pathPoints := []
            simData := [] }).simData.length = 0 := by omega
      exact List.length_eq_zero.mp this
    have hDne : s.currentSimData ≠ [] := by
      rcases hne with h | h
      · exact h
      · exact absurd hsd h
    obtain ⟨h1, h2, h3, h4⟩ := summary_fields s.currentSimData hDne
    exact ⟨s.currentSimData, _, rfl, rfl, h1, h2, h3, h4, rfl, rfl, rfl⟩


/-! ### General branch lemmas for `runSimulation` -/

/-- The main branch of `runSimulation` when steps ran and no ground
contact is detected: batched state publication only. -/
lemma runSimulation_no_contact (ts : ℝ) (fuel : ℕ) (s : AppState) (lastT : ℝ)
    (proj : ProjectileState) (hLT : s.lastTime = some lastT) (hNZ : lastT ≠ 0)
    (hP : s.projectile = some proj)
    (hpp : 0 < (frameLoop ts lastT fuel s proj).pathPoints.length)
    (hnc : ¬((frameLoop ts lastT fuel s proj).proj.position.y ≤ 0 ∧
        s.simulationTime > 0)) :
    runSimulation ts fuel s =
      { s with
        lastTime := some ts
        projectile := some (frameLoop ts lastT fuel s proj).proj
        currentPath := s.currentPath ++ (frameLoop ts lastT fuel s proj).pathPoints
        simulationTime := (frameLoop ts lastT fuel s proj).simTime
        currentSimData := s.currentSimData ++ (frameLoop ts lastT fuel s proj).simData
        accumulator := (frameLoop ts lastT fuel s proj).accumulator } := by
  simp only [runSimulation, hLT, hP]
  rw [if_neg hNZ, if_neg hnc, if_pos hpp]

/-- The finalisation branch of `runSimulation` when the frame ran zero
integrator steps but the live projectile is on the ground with positive
published simulation time. -/
lemma runSimulation_contact_nosteps (ts : ℝ) (fuel : ℕ) (s : AppState) (lastT : ℝ)
    (proj : ProjectileState) (hLT : s.lastTime = some lastT) (hNZ : lastT ≠ 0)
    (hP : s.projectile = some proj)
    (hpp : (frameLoop ts lastT fuel s proj).pathPoints.length = 0)
    (hy : (frameLoop ts lastT fuel s proj).proj.position.y ≤ 0)
    (ht : s.simulationTime > 0) :
    runSimulation ts fuel s =
      { s with
        lastTime := some ts
        accumulator := (frameLoop ts lastT fuel s proj).accumulator
        flightSummary := some
          { totalTime :=
              match s.currentSimData.getLast? with
              | some d => d.time
              | none => 0
            maxHeight := (s.currentSimData.map (fun d => d.posY)).foldr max 0
            maxRange := (frameLoop ts lastT fuel s proj).proj.position.x
              - CANNON_PIVOT_X / SCALE
            impactVelocity :=
              Real.sqrt ((frameLoop ts lastT fuel s proj).proj.velocity.x ^ 2
                + (frameLoop ts lastT fuel s proj).proj.velocity.y ^ 2) }
        isSummaryModalOpen := true
        currentSimData := []
        projectile := some ⟨⟨(frameLoop ts lastT fuel s proj).proj.position.x, 0⟩, ⟨0, 0⟩⟩
        currentPath := s.currentPath
          ++ (frameLoop ts lastT fuel s proj).pathPoints.dropLast
          ++ [⟨(frameLoop ts lastT fuel s proj).proj.position.x, 0⟩]
        impactPoint := some ⟨(frameLoop ts lastT fuel s proj).proj.position.x, 0⟩
        allSimulationData := s.allSimulationData ++ [s.currentSimData]
        showCharts := true
        isRunning := false } := by
  have hppneg : ¬0 < (frameLoop ts lastT fuel s proj).pathPoints.length := by omega
  simp only [runSimulation, hLT, hP]
  rw [if_neg hNZ, if_neg hppneg, if_pos ⟨hy, ht⟩]

/-! ### C5 : below-ground samples reach the archived data -/

/-- A non-running configuration whose launch angle (`-90` degrees,
reachable through the unconstrained angle input) points the muzzle below
ground. -/
noncomputable def stateC5 : AppState :=
  ⟨15, -90, 5, 1 / 2, false, none, [], [], false, 0, none, [], [], false, none,
    none, 0, false⟩

/-- The component state right after `fireCannon 1000 stateC5`. -/
noncomputable def fireC5 : AppState :=
  ⟨15, -90, 5, 1 / 2, false, some ⟨⟨3 / 2, -2⟩, ⟨0, -15⟩⟩, [], [⟨3 / 2, -2⟩], true,
    0, none, [], [⟨0, 3 / 2, -2, 15, GRAVITY⟩], false, none, some 1000, 0, false⟩

/-- The loop state entering the first frame's physics loop. -/
noncomputable def entryC5 : LoopState :=
  ⟨⟨⟨3 / 2, -2⟩, ⟨0, -15⟩⟩, 0, 1 / 120, [], []⟩

/-- The loop state after the single integrator step of the first frame. -/
noncomputable def loop1C5 : LoopState :=
  integrateOnce ⟨5, 1 / 2, false⟩ entryC5

lemma fireC5_eq : fireCannon 1000 stateC5 = fireC5 := by
  have hc : Real.cos (-(90 * Real.pi) / 180) = 0 := by
    rw [show (-(90 * Real.pi) / 180 : ℝ) = -(Real.pi / 2) by ring]
    simp
  have hs : Real.sin (-(90 * Real.pi) / 180) = -1 := by
    rw [show (-(90 * Real.pi) / 180 : ℝ) = -(Real.pi / 2) by ring]
    simp
  rw [fireCannon]
  rw [if_neg (by norm_num [stateC5])]
  simp only [stateC5, fireC5]
  norm_num [hc, hs, CANNON_PIVOT_X, CANNON_LENGTH, CANNON_BASE_HEIGHT, SCALE]

lemma loop1C5_acc : loop1C5.accumulator = 0 := by
  norm_num [loop1C5, entryC5, integrateOnce, FIXED_DT]

lemma loop1C5_simTime : loop1C5.simTime = 1 / 120 := by
  norm_num [loop1C5, entryC5, integrateOnce, FIXED_DT]

lemma loop1C5_pos : loop1C5.proj.position = ⟨3 / 2, -17 / 8⟩ := by
  simp only [loop1C5, entryC5, integrateOnce]
  norm_num [FIXED_DT]

lemma loop1C5_path : loop1C5.pathPoints = [⟨3 / 2, -17 / 8⟩] := by
  simp only [loop1C5, entryC5, integrateOnce]
  norm_num [FIXED_DT]

lemma frameLoop1C5 :
    frameLoop (1000 + 25 / 3) 1000 31 fireC5 ⟨⟨3 / 2, -2⟩, ⟨0, -15⟩⟩ = loop1C5 := by
  rw [frameLoop]
  have hentry :
      ({ proj := ⟨⟨3 / 2, -2⟩, ⟨0, -15⟩⟩
         simTime := fireC5.simulationTime
         accumulator := frameAccumulate (1000 + 25 / 3) 1000 fireC5.accumulator
         pathPoints := []
         simData := [] } : LoopState) = entryC5 := by
    norm_num [frameAccumulate, fireC5, entryC5]
  rw [hentry, show bodyParams fireC5 = ⟨5, 1 / 2, false⟩ from rfl,
    show (31 : ℕ) = 30 + 1 by norm_num, stepLoop]
  rw [if_pos (show entryC5.accumulator ≥ FIXED_DT by norm_num [entryC5, FIXED_DT])]
  rw [if_neg (show ¬(entryC5.proj.position.y ≤ 0 ∧ entryC5.simTime > 0.1) by
    norm_num [entryC5])]
  exact stepLoop_of_acc_lt _ _ _ (by rw [show integrateOnce ⟨5, 1 / 2, false⟩ entryC5
    = loop1C5 from rfl, loop1C5_acc]; norm_num [FIXED_DT])

/-- The component state after the first frame callback. -/
noncomputable def frame1C5 : AppState :=
  { fireC5 with
    lastTime := some (1000 + 25 / 3)
    projectile := some loop1C5.proj
    currentPath := fireC5.currentPath ++ loop1C5.pathPoints
    simulationTime := loop1C5.simTime
    currentSimData := fireC5.currentSimData ++ loop1C5.simData
    accumulator := loop1C5.accumulator }

lemma frame1C5_eq : runSimulation (1000 + 25 / 3) 31 fireC5 = frame1C5 := by
  rw [runSimulation_no_contact (1000 + 25 / 3) 31 fireC5 1000 ⟨⟨3 / 2, -2⟩, ⟨0, -15⟩⟩
    rfl (by norm_num) rfl
    (by rw [frameLoop1C5, loop1C5_path]; norm_num)
    (by rw [frameLoop1C5]; intro h; exact absurd h.2 (by norm_num [fireC5]))]
  rw [frameLoop1C5]
  rfl

lemma frameLoop2C5 :
    frameLoop (1001 + 25 / 3) (1000 + 25 / 3) 31 frame1C5 loop1C5.proj =
      ⟨loop1C5.proj, frame1C5.simulationTime,
        frameAccumulate (1001 + 25 / 3) (1000 + 25 / 3) frame1C5.accumulator,
        [], []⟩ := by
  rw [frameLoop]
  exact stepLoop_of_acc_lt _ _ _ (by
    show frameAccumulate (1001 + 25 / 3) (1000 + 25 / 3) frame1C5.accumulator < FIXED_DT
    rw [show frame1C5.accumulator = loop1C5.accumulator from rfl, loop1C5_acc]
    norm_num [frameAccumulate, FIXED_DT])

/-- Counterexample to claim C5: a completed shot whose archived
simulation-data list contains a sample with `posY < -1/100` (in fact the
seed sample at `posY = -2`).  Fired straight down, the samples lie below
ground; the second frame finalises the trajectory and the raw sample list
is archived unclamped, so the "no sample below `-eps`" invariant fails. -/
theorem below_ground_sample_archived :
    (runSimulation (1001 + 25 / 3) 31
        (runSimulation (1000 + 25 / 3) 31 (fireCannon 1000 stateC5))).isRunning
      = false ∧
    ∃ D ∈ (runSimulation (1001 + 25 / 3) 31
        (runSimulation (1000 + 25 / 3) 31 (fireCannon 1000 stateC5))).allSimulationData,
      ∃ d ∈ D, d.posY < -(1 / 100) := by
  rw [fireC5_eq, frame1C5_eq]
  rw [runSimulation_contact_nosteps (1001 + 25 / 3) 31 frame1C5 (1000 + 25 / 3)
    loop1C5.proj rfl (by norm_num) rfl
    (by rw [frameLoop2C5]; rfl)
    (by rw [frameLoop2C5]; show loop1C5.proj.position.y ≤ 0; rw [loop1C5_pos]; norm_num)
    (by show frame1C5.simulationTime > 0
        rw [show frame1C5.simulationTime = loop1C5.simTime from rfl, loop1C5_simTime]
        norm_num)]
  refine ⟨rfl, frame1C5.currentSimData, ?_, ⟨0, 3 / 2, -2, 15, GRAVITY⟩, ?_, by norm_num⟩
  · show frame1C5.currentSimData ∈ frame1C5.allSimulationData ++ [frame1C5.currentSimData]
    exact List.mem_append_right _ (List.mem_singleton_self _)
  · show (⟨0, 3 / 2, -2, 15, GRAVITY⟩ : SimDataPoint) ∈
      fireC5.currentSimData ++ loop1C5.simData
    exact List.mem_append_left _ (List.mem_singleton_self _)

/-- Claim C5 amended: the integrator guard does not keep below-ground
samples out of the archived simulation-data list (see
`below_ground_sample_archived`); what the finalisation does guarantee is
that the completed path's last recorded point is clamped to ground level:
whenever a frame finalises the trajectory, the final point of the
published path is exactly `(x_final, 0)`. -/
theorem final_path_point_clamped (ts : ℝ) (fuel : ℕ) (s : AppState) (lastT : ℝ)
    (proj : ProjectileState) (hLT : s.lastTime = some lastT) (hNZ : lastT ≠ 0)
    (hP : s.projectile = some proj)
    (hy : (frameLoop ts lastT fuel s proj).proj.position.y ≤ 0)
    (ht : s.simulationTime > 0) :
    (runSimulation ts fuel s).currentPath.getLast?
      = some ⟨(frameLoop ts lastT fuel s proj).proj.position.x, 0⟩ := by
  simp only [runSimulation, hLT, hP]
  rw [if_neg hNZ, if_pos ⟨hy, ht⟩]
  simp

/-- A mid-flight state used to witness `final_path_point_clamped`. -/
noncomputable def stateW5 : AppState :=
  ⟨10, 45, 3, 1 / 2, false, some ⟨⟨7, -1 / 2⟩, ⟨2, -4⟩⟩, [], [⟨6, 1⟩], true, 2, none,
    [], [⟨0, 6, 1, 5, 9.81⟩], false, none, some 500, 0, false⟩

lemma frameLoopW5 :
    frameLoop (1001 / 2) 500 31 stateW5 ⟨⟨7, -1 / 2⟩, ⟨2, -4⟩⟩ =
      ⟨⟨⟨7, -1 / 2⟩, ⟨2, -4⟩⟩, stateW5.simulationTime,
        frameAccumulate (1001 / 2) 500 stateW5.accumulator, [], []⟩ := by
  rw [frameLoop]
  exact stepLoop_of_acc_lt _ _ _
    (by norm_num [frameAccumulate, stateW5, FIXED_DT])

/-- Witness for the amended C5 at a concrete grounded frame. -/
theorem final_path_point_clamped_witness :
    (stateW5.lastTime = some 500 ∧ (500 : ℝ) ≠ 0 ∧
      stateW5.projectile = some ⟨⟨7, -1 / 2⟩, ⟨2, -4⟩⟩ ∧
      (frameLoop (1001 / 2) 500 31 stateW5 ⟨⟨7, -1 / 2⟩, ⟨2, -4⟩⟩).proj.position.y ≤ 0 ∧
      stateW5.simulationTime > 0) ∧
    (runSimulation (1001 / 2) 31 stateW5).currentPath.getLast?
      = some ⟨(frameLoop (1001 / 2) 500 31 stateW5 ⟨⟨7, -1 / 2⟩, ⟨2, -4⟩⟩).proj.position.x,
          0⟩ :=
  ⟨⟨rfl, by norm_num, rfl, by rw [frameLoopW5]; norm_num, by norm_num [stateW5]⟩,
    final_path_point_clamped (1001 / 2) 31 stateW5 500 ⟨⟨7, -1 / 2⟩, ⟨2, -4⟩⟩ rfl
      (by norm_num) rfl (by rw [frameLoopW5]; norm_num) (by norm_num [stateW5])⟩

/-- A mid-flight state used to witness `flight_summary_correct`. -/
noncomputable def stateW6 : AppState :=
  ⟨15, 45, 5, 1 / 2, false, some ⟨⟨2, -1⟩, ⟨1, -3⟩⟩, [], [⟨0, 1⟩], true, 1, none,
    [], [⟨0, 2, 1, 3, 9.81⟩], false, none, some 1000, 0, false⟩

lemma frameLoopW6 :
    frameLoop 1001 1000 31 stateW6 ⟨⟨2, -1⟩, ⟨1, -3⟩⟩ =
      ⟨⟨⟨2, -1⟩, ⟨1, -3⟩⟩, stateW6.simulationTime,
        frameAccumulate 1001 1000 stateW6.accumulator, [], []⟩ := by
  rw [frameLoop]
  exact stepLoop_of_acc_lt _ _ _
    (by norm_num [frameAccumulate, stateW6, FIXED_DT])

/-- Witness for C6 at a concrete finalising frame. -/
theorem flight_summary_correct_witness :
    (stateW6.lastTime = some 1000 ∧ (1000 : ℝ) ≠ 0 ∧
      stateW6.projectile = some ⟨⟨2, -1⟩, ⟨1, -3⟩⟩ ∧
      (frameLoop 1001 1000 31 stateW6 ⟨⟨2, -1⟩, ⟨1, -3⟩⟩).proj.position.y ≤ 0 ∧
      stateW6.simulationTime > 0 ∧
      (stateW6.currentSimData ≠ [] ∨
        (frameLoop 1001 1000 31 stateW6 ⟨⟨2, -1⟩, ⟨1, -3⟩⟩).simData ≠ [])) ∧
    ∃ D fs,
      (runSimulation 1001 31 stateW6).allSimulationData
          = stateW6.allSimulationData ++ [D] ∧
      (runSimulation 1001 31 stateW6).flightSummary = some fs ∧
      (∃ dl, D.getLast? = some dl ∧ fs.totalTime = dl.time) ∧
      (∀ d ∈ D, d.posY ≤ fs.maxHeight) ∧
      0 ≤ fs.maxHeight ∧
      (fs.maxHeight = 0 ∨ ∃ d ∈ D, fs.maxHeight = d.posY) ∧
      fs.maxRange
        = (frameLoop 1001 1000 31 stateW6 ⟨⟨2, -1⟩, ⟨1, -3⟩⟩).proj.position.x
            - CANNON_PIVOT_X / SCALE ∧
      fs.impactVelocity
        = Real.sqrt ((frameLoop 1001 1000 31 stateW6 ⟨⟨2, -1⟩, ⟨1, -3⟩⟩).proj.velocity.x ^ 2
            + (frameLoop 1001 1000 31 stateW6 ⟨⟨2, -1⟩, ⟨1, -3⟩⟩).proj.velocity.y ^ 2) ∧
      (runSimulation 1001 31 stateW6).projectile
        = some ⟨⟨(frameLoop 1001 1000 31 stateW6 ⟨⟨2, -1⟩, ⟨1, -3⟩⟩).proj.position.x, 0⟩,
            ⟨0, 0⟩⟩ :=
  ⟨⟨rfl, by norm_num, rfl, by rw [frameLoopW6]; norm_num, by norm_num [stateW6],
      Or.inl (by simp [stateW6])⟩,
    flight_summary_correct 1001 31 stateW6 1000 ⟨⟨2, -1⟩, ⟨1, -3⟩⟩ rfl (by norm_num)
      rfl (by rw [frameLoopW6]; norm_num) (by norm_num [stateW6])
      (Or.inl (by simp [stateW6]))⟩

/-! ### C8 : no validation of degenerate parameters in fireCannon -/

/-- A non-running configuration with degenerate `mass = 0`. -/
noncomputable def stateC8 : AppState :=
  ⟨15, 45, 0, 1 / 2, false, none, [], [], false, 0, none, [], [], false, none,
    none, 0, false⟩

/-- Counterexample to claim C8: `fireCannon` contains no mass/diameter
validation; with `mass = 0` and no shot running it still starts the shot,
creating a `ProjectileState` and setting `isRunning`. -/
theorem fire_accepts_degenerate_mass :
    stateC8.mass ≤ 0 ∧ stateC8.isRunning = false ∧
    (fireCannon 5 stateC8).isRunning = true ∧
    (fireCannon 5 stateC8).projectile.isSome = true := by
  refine ⟨by norm_num [stateC8], rfl, ?_, ?_⟩
  · rw [fireCannon, if_neg (by norm_num [stateC8])]
  · rw [fireCannon, if_neg (by norm_num [stateC8])]
    rfl

/-- Claim C8 amended: `fireCannon` performs no validation of `mass` or
`diameter`: even for a configuration with `mass ≤ 0` or `diameter ≤ 0`
(and no shot running), it starts the shot, creating a `ProjectileState`
and running the simulation with the degenerate parameters, instead of
refusing. -/
theorem fire_no_validation (now : ℝ) (s : AppState)
    (_hdeg : s.mass ≤ 0 ∨ s.diameter ≤ 0) (hrun : s.isRunning = false) :
    (fireCannon now s).isRunning = true ∧
    (fireCannon now s).projectile.isSome = true := by
  constructor
  · rw [fireCannon, if_neg (by simp [hrun])]
  · rw [fireCannon, if_neg (by simp [hrun])]
    rfl

/-- A non-running configuration with degenerate `diameter = -1`. -/
noncomputable def stateW8 : AppState :=
  ⟨10, 30, 5, -1, true, none, [], [], false, 0, none, [], [], false, none, none,
    0, false⟩

/-- Witness for the amended C8 at a concrete degenerate configuration. -/
theorem fire_no_validation_witness :
    ((stateW8.mass ≤ 0 ∨ stateW8.diameter ≤ 0) ∧ stateW8.isRunning = false) ∧
    ((fireCannon 9 stateW8).isRunning = true ∧
      (fireCannon 9 stateW8).projectile.isSome = true) :=
  ⟨⟨Or.inr (by norm_num [stateW8]), rfl⟩,
    fire_no_validation 9 stateW8 (Or.inr (by norm_num [stateW8])) rfl⟩

/-! ### C10 : the synthetic seed sample -/

/-- With drag enabled, positive speed and non-negative vertical velocity,
the magnitude of the computed acceleration strictly exceeds gravity. -/
lemma accel_mag_gt_gravity (v : Vec) (p : BodyParams)
    (hdrag : p.airResistance = true) (hm : 0 < p.mass) (hd : p.diameter ≠ 0)
    (hsp : 0 < Real.sqrt (v.x ^ 2 + v.y ^ 2)) (hvy : 0 ≤ v.y) :
    GRAVITY < Real.sqrt ((getAccelerationVector v p).x ^ 2
      + (getAccelerationVector v p).y ^ 2) := by
  have hq2 : Real.sqrt (v.x ^ 2 + v.y ^ 2) ^ 2 = v.x ^ 2 + v.y ^ 2 :=
    Real.sq_sqrt (by positivity)
  set q := Real.sqrt (v.x ^ 2 + v.y ^ 2) with hqdef
  set k := (0.5 * AIR_DENSITY * q ^ 2 * dragCoefficient *
      (Real.pi * (p.diameter / 2) ^ 2)) / (q * p.mass) with hkdef
  have hax : (getAccelerationVector v p).x = -k * v.x := by
    simp only [getAccelerationVector, hdrag, if_true, if_pos hsp]
    rw [hkdef]
    ring
  have hay : (getAccelerationVector v p).y = -GRAVITY - k * v.y := by
    simp only [getAccelerationVector, hdrag, if_true, if_pos hsp]
    rw [hkdef]
    ring
  have hkpos : 0 < k := by
    rw [hkdef]
    have hd2 : (0 : ℝ) < (p.diameter / 2) ^ 2 := by
      have hne : p.diameter / 2 ≠ 0 := div_ne_zero hd (by norm_num)
      exact lt_of_le_of_ne (sq_nonneg _) (Ne.symm (pow_ne_zero 2 hne))
    apply div_pos
    · have h1 : (0 : ℝ) < 0.5 * AIR_DENSITY := by norm_num [AIR_DENSITY]
      have h2 : (0 : ℝ) < q ^ 2 := pow_pos hsp 2
      have h3 : (0 : ℝ) < dragCoefficient := by norm_num [dragCoefficient]
      have h4 : (0 : ℝ) < Real.pi * (p.diameter / 2) ^ 2 :=
        mul_pos Real.pi_pos hd2
      exact mul_pos (mul_pos (mul_pos h1 h2) h3) h4
    · exact mul_pos hsp hm
  have hGnn : (0 : ℝ) ≤ GRAVITY := by norm_num [GRAVITY]
  rw [Real.lt_sqrt hGnn, hax, hay]
  have hsum : (-k * v.x) ^ 2 + (-GRAVITY - k * v.y) ^ 2
      = GRAVITY ^ 2 + k ^ 2 * q ^ 2 + 2 * GRAVITY * k * v.y := by
    rw [hq2]
    ring
  rw [hsum]
  have h1 : 0 < k ^ 2 * q ^ 2 := mul_pos (pow_pos hkpos 2) (pow_pos hsp 2)
  have h2 : 0 ≤ 2 * GRAVITY * k * v.y :=
    mul_nonneg (mul_nonneg (mul_nonneg (by norm_num) hGnn) hkpos.le) hvy
  linarith

/-- Claim C10 amended: every `fireCannon` records a synthetic seed sample
at time 0 whose `vel` is the configured `initialSpeed` and whose `acc` is
the gravity constant `9.81`; when drag is enabled (with positive mass,
non-zero diameter, positive initial speed) and the launch is not pointed
downward (`sin` of the launch angle non-negative), this recorded `9.81`
differs from — in fact is strictly below — the magnitude of the actual
initial acceleration (gravity plus drag) that the first integrator step
uses. -/
theorem seed_sample_uses_gravity (now : ℝ) (s : AppState)
    (hrun : s.isRunning = false) (hdrag : s.airResistance = true)
    (hm : 0 < s.mass) (hd : s.diameter ≠ 0) (hsp : 0 < s.initialSpeed)
    (hsin : 0 ≤ Real.sin (s.angle * Real.pi / 180)) :
    (fireCannon now s).currentSimData
      = [⟨0,
          (CANNON_PIVOT_X + CANNON_LENGTH * Real.cos (s.angle * Real.pi / 180)) / SCALE,
          (CANNON_BASE_HEIGHT + CANNON_LENGTH * Real.sin (s.angle * Real.pi / 180)) / SCALE,
          s.initialSpeed, GRAVITY⟩] ∧
    GRAVITY < Real.sqrt
      ((getAccelerationVector
          ⟨s.initialSpeed * Real.cos (s.angle * Real.pi / 180),
           s.initialSpeed * Real.sin (s.angle * Real.pi / 180)⟩ (bodyParams s)).x ^ 2
        + (getAccelerationVector
          ⟨s.initialSpeed * Real.cos (s.angle * Real.pi / 180),
           s.initialSpeed * Real.sin (s.angle * Real.pi / 180)⟩ (bodyParams s)).y ^ 2) := by
  constructor
  · rw [fireCannon, if_neg (by simp [hrun])]
  · refine accel_mag_gt_gravity _ (bodyParams s) hdrag hm hd ?_ ?_
    · have hsum : (s.initialSpeed * Real.cos (s.angle * Real.pi / 180)) ^ 2
          + (s.initialSpeed * Real.sin (s.angle * Real.pi / 180)) ^ 2
          = s.initialSpeed ^ 2 := by
        have h1 := Real.sin_sq_add_cos_sq (s.angle * Real.pi / 180)
        linear_combination s.initialSpeed ^ 2 * h1
      show (0 : ℝ) < Real.sqrt
        ((s.initialSpeed * Real.cos (s.angle * Real.pi / 180)) ^ 2
          + (s.initialSpeed * Real.sin (s.angle * Real.pi / 180)) ^ 2)
      rw [hsum, Real.sqrt_sq hsp.le]
      exact hsp
    · exact mul_nonneg hsp.le hsin

/-- A non-running drag-enabled configuration fired straight up. -/
noncomputable def stateW10 : AppState :=
  ⟨15, 90, 5, 1 / 2, true, none, [], [], false, 0, none, [], [], false, none,
    none, 0, false⟩

/-- Witness for the amended C10 at a concrete vertical launch. -/
theorem seed_sample_uses_gravity_witness :
    (stateW10.isRunning = false ∧ stateW10.airResistance = true ∧
      0 < stateW10.mass ∧ stateW10.diameter ≠ 0 ∧ 0 < stateW10.initialSpeed ∧
      0 ≤ Real.sin (stateW10.angle * Real.pi / 180)) ∧
    ((fireCannon 3 stateW10).currentSimData
      = [⟨0,
          (CANNON_PIVOT_X
            + CANNON_LENGTH * Real.cos (stateW10.angle * Real.pi / 180)) / SCALE,
          (CANNON_BASE_HEIGHT
            + CANNON_LENGTH * Real.sin (stateW10.angle * Real.pi / 180)) / SCALE,
          stateW10.initialSpeed, GRAVITY⟩] ∧
    GRAVITY < Real.sqrt
      ((getAccelerationVector
          ⟨stateW10.initialSpeed * Real.cos (stateW10.angle * Real.pi / 180),
           stateW10.initialSpeed * Real.sin (stateW10.angle * Real.pi / 180)⟩
          (bodyParams stateW10)).x ^ 2
        + (getAccelerationVector
          ⟨stateW10.initialSpeed * Real.cos (stateW10.angle * Real.pi / 180),
           stateW10.initialSpeed * Real.sin (stateW10.angle * Real.pi / 180)⟩
          (bodyParams stateW10)).y ^ 2)) := by
  have hsin : 0 ≤ Real.sin (stateW10.angle * Real.pi / 180) := by
    rw [show stateW10.angle = (90 : ℝ) from rfl,
      show (90 : ℝ) * Real.pi / 180 = Real.pi / 2 by ring, Real.sin_pi_div_two]
    norm_num
  exact ⟨⟨rfl, rfl, by norm_num [stateW10], by norm_num [stateW10],
      by norm_num [stateW10], hsin⟩,
    seed_sample_uses_gravity 3 stateW10 rfl rfl (by norm_num [stateW10])
      (by norm_num [stateW10]) (by norm_num [stateW10]) hsin⟩

/-- The drag branch of the acceleration model, spelled out. -/
lemma getAcc_drag (v : Vec) (p : BodyParams) (hdrag : p.airResistance = true)
    (hsp : 0 < Real.sqrt (v.x ^ 2 + v.y ^ 2)) :
    getAccelerationVector v p =
      ⟨-(0.5 * AIR_DENSITY * Real.sqrt (v.x ^ 2 + v.y ^ 2) ^ 2 * dragCoefficient *
          (Real.pi * (p.diameter / 2) ^ 2)) *
          (v.x / Real.sqrt (v.x ^ 2 + v.y ^ 2)) / p.mass,
       -GRAVITY + -(0.5 * AIR_DENSITY * Real.sqrt (v.x ^ 2 + v.y ^ 2) ^ 2 *
          dragCoefficient * (Real.pi * (p.diameter / 2) ^ 2)) *
          (v.y / Real.sqrt (v.x ^ 2 + v.y ^ 2)) / p.mass⟩ := by
  simp only [getAccelerationVector, hdrag, if_true, if_pos hsp]
  refine congrArg₂ Vec.mk ?_ ?_ <;> ring

/-- A drag-enabled configuration fired 30 degrees below the horizontal
with a mass tuned so that the drag deceleration has magnitude exactly
`GRAVITY`. -/
noncomputable def stateC10 : AppState :=
  ⟨15, -30, 11515 * Real.pi / 27904, 1 / 2, true, none, [], [], false, 0, none,
    [], [], false, none, none, 0, false⟩

/-- Counterexample to claim C10: for this drag-enabled `fireCannon`
configuration the synthetic seed sample still records `acc = 9.81`, but
the magnitude of the actual initial acceleration (gravity plus drag) that
the first integrator step would use is also exactly `9.81`, so the claimed
"does not equal" fails. -/
theorem seed_acc_coincides_with_actual :
    stateC10.airResistance = true ∧ 0 < stateC10.mass ∧
    0 < stateC10.initialSpeed ∧
    (fireCannon 0 stateC10).projectile
      = some ⟨⟨(CANNON_PIVOT_X
            + CANNON_LENGTH * Real.cos (stateC10.angle * Real.pi / 180)) / SCALE,
          (CANNON_BASE_HEIGHT
            + CANNON_LENGTH * Real.sin (stateC10.angle * Real.pi / 180)) / SCALE⟩,
        ⟨15 * Real.cos (stateC10.angle * Real.pi / 180),
         15 * Real.sin (stateC10.angle * Real.pi / 180)⟩⟩ ∧
    (fireCannon 0 stateC10).currentSimData
      = [⟨0,
          (CANNON_PIVOT_X
            + CANNON_LENGTH * Real.cos (stateC10.angle * Real.pi / 180)) / SCALE,
          (CANNON_BASE_HEIGHT
            + CANNON_LENGTH * Real.sin (stateC10.angle * Real.pi / 180)) / SCALE,
          15, GRAVITY⟩] ∧
    Real.sqrt ((getAccelerationVector
        ⟨15 * Real.cos (stateC10.angle * Real.pi / 180),
         15 * Real.sin (stateC10.angle * Real.pi / 180)⟩ (bodyParams stateC10)).x ^ 2
      + (getAccelerationVector
        ⟨15 * Real.cos (stateC10.angle * Real.pi / 180),
         15 * Real.sin (stateC10.angle * Real.pi / 180)⟩ (bodyParams stateC10)).y ^ 2)
      = GRAVITY := by
  have hang : stateC10.angle * Real.pi / 180 = -(Real.pi / 6) := by
    rw [show stateC10.angle = (-30 : ℝ) from rfl]
    ring
  have hc : Real.cos (stateC10.angle * Real.pi / 180) = Real.sqrt 3 / 2 := by
    rw [hang, Real.cos_neg, Real.cos_pi_div_six]
  have hs : Real.sin (stateC10.angle * Real.pi / 180) = -(1 / 2) := by
    rw [hang, Real.sin_neg, Real.sin_pi_div_six]
  have h3 : Real.sqrt 3 ^ 2 = 3 := Real.sq_sqrt (by norm_num)
  refine ⟨rfl, ?_, by norm_num [stateC10], ?_, ?_, ?_⟩
  · show (0 : ℝ) < 11515 * Real.pi / 27904
    positivity
  · rw [fireCannon, if_neg (by norm_num [stateC10])]
    rfl
  · rw [fireCannon, if_neg (by norm_num [stateC10])]
    rfl
  · rw [hc, hs]
    have hq : Real.sqrt ((15 * (Real.sqrt 3 / 2)) ^ 2 + (15 * -(1 / 2)) ^ 2) = 15 := by
      have hval : (15 * (Real.sqrt 3 / 2)) ^ 2 + (15 * -(1 / 2)) ^ 2 = (225 : ℝ) := by
        linear_combination (225 / 4 : ℝ) * h3
      rw [hval, show (225 : ℝ) = 15 ^ 2 by norm_num]
      exact Real.sqrt_sq (by norm_num)
    have hq15 : 0 < Real.sqrt ((15 * (Real.sqrt 3 / 2)) ^ 2 + (15 * -(1 / 2)) ^ 2) := by
      rw [hq]
      norm_num
    rw [getAcc_drag ⟨15 * (Real.sqrt 3 / 2), 15 * -(1 / 2)⟩ (bodyParams stateC10)
        rfl hq15, hq,
      show (bodyParams stateC10).diameter = 1 / 2 from rfl,
      show (bodyParams stateC10).mass = 11515 * Real.pi / 27904 from rfl]
    have hFdm : (0.5 * AIR_DENSITY * (15 : ℝ) ^ 2 * dragCoefficient *
        (Real.pi * ((1 : ℝ) / 2 / 2) ^ 2)) / (11515 * Real.pi / 27904) = 9.81 := by
      rw [AIR_DENSITY, dragCoefficient,
        div_eq_iff (ne_of_gt (by positivity : (0 : ℝ) < 11515 * Real.pi / 27904))]
      ring
    have hE1 : -(0.5 * AIR_DENSITY * (15 : ℝ) ^ 2 * dragCoefficient *
          (Real.pi * ((1 : ℝ) / 2 / 2) ^ 2)) * (15 * (Real.sqrt 3 / 2) / 15)
          / (11515 * Real.pi / 27904)
        = -(9.81 * (Real.sqrt 3 / 2)) := by
      rw [← hFdm]
      ring
    have hE2 : -GRAVITY + -(0.5 * AIR_DENSITY * (15 : ℝ) ^ 2 * dragCoefficient *
          (Real.pi * ((1 : ℝ) / 2 / 2) ^ 2)) * (15 * -(1 / 2) / 15)
          / (11515 * Real.pi / 27904)
        = -(9.81 / 2) := by
      rw [GRAVITY, ← hFdm]
      ring
    dsimp only
    rw [hE1, hE2]
    have hfin : (-(9.81 * (Real.sqrt 3 / 2))) ^ 2 + (-((9.81 : ℝ) / 2)) ^ 2
        = 9.81 ^ 2 := by
      linear_combination ((9.81 : ℝ) ^ 2 / 4) * h3
    rw [hfin, GRAVITY]
    exact Real.sqrt_sq (by norm_num)
